import Mathlib

/-!
Verification development for the IncludEd document-structure core:
`ai-service/ml_pipeline/content_classifier.py` (ContentClassifier.classify) and
`ai-service/ml_pipeline/structural_segmenter.py` (StructuralSegmenter).

The embedding is a direct translation of the Python source:
* PyMuPDF block/line/span dictionaries become `Block`/`BLine`/`Span` records
  (only the fields the core reads are kept: `type`, `lines`, `spans`, `text`;
  font metadata is never consumed by `classify` or the segmenter).
* Python floats become exact rationals.  All score weights are small decimal
  constants and the code only ever adds them and compares with `<`, `>`, `>=`,
  so rational arithmetic mirrors the float computation on all inputs exercised
  here.
* Each compiled regex is hand-translated to an executable matcher over
  `List Char` with Python `re` semantics (leftmost match, greedy quantifiers
  with backtracking, `\b` word boundaries).  All inputs in this repository are
  ASCII, so the character classes are modelled over ASCII; extracted lines are
  `str.strip`ped, hence contain no trailing newline, so `$` is modelled as
  end-of-string.
* The classifier's optional ML blend (`self.model`) is a no-op in this
  repository: no `models/classifier_v1.joblib` is shipped, so `_load_model`
  leaves `self.model = None` and the blend branch never runs.  `ml_probabilities`
  is therefore the constant `{play: 0.0, novel: 0.0}` and is omitted from the
  embedded result record.
* `_uid()` returns a fresh random uuid fragment that no logic ever reads or
  compares; the `id` fields are omitted from the embedded records.
* Python dict keys that are only sometimes present (the `inferred` key of unit
  nodes, the `content` key of novel sections) are modelled as `Option` fields,
  `none` meaning the key is absent.
* The play builder can raise: evaluating `is_scened_act`
  (structural_segmenter.py line 157) executes `next_t["level"]` on the token
  after a surviving act heading, a KeyError when that token is a content dict.
  The builder is therefore embedded as an `Option`-valued function, `none`
  being the uncaught exception.  The classifier and the novel builder are
  total.
-/

/- Batteries marks the rational operations irreducible, which blocks kernel
evaluation of concrete score computations; restore the default reducibility so
that `decide`/`rfl` can evaluate the embedded classifier on concrete inputs. -/
attribute [local semireducible] Rat.sub Rat.add Rat.mul Rat.inv Rat.ofScientific

/-! ## ASCII character classes (Python `re` classes and `str` predicates) -/

/-- Named punctuation characters. -/
def aposC : Char := Char.ofNat 39
def dotC : Char := Char.ofNat 46
def bangC : Char := Char.ofNat 33
def questC : Char := Char.ofNat 63
def commaC : Char := Char.ofNat 44
def semiC : Char := Char.ofNat 59
def lparC : Char := Char.ofNat 40
def rparC : Char := Char.ofNat 41
def lbrkC : Char := Char.ofNat 91
def rbrkC : Char := Char.ofNat 93
def uscoreC : Char := Char.ofNat 95
def nlC : Char := Char.ofNat 10
def tabC : Char := Char.ofNat 9
def crC : Char := Char.ofNat 13

/-- ASCII uppercase letter (Python `c.isupper()` on ASCII input). -/
def isUpperA (c : Char) : Bool := 'A' ≤ c && c ≤ 'Z'

/-- ASCII lowercase letter (Python `c.islower()` on ASCII input). -/
def isLowerA (c : Char) : Bool := 'a' ≤ c && c ≤ 'z'

/-- ASCII letter (Python `c.isalpha()` on ASCII input). -/
def isAlphaA (c : Char) : Bool := isUpperA c || isLowerA c

/-- ASCII digit (regex class d). -/
def isDigitA (c : Char) : Bool := '0' ≤ c && c ≤ '9'

/-- Python regex word character (class w) on ASCII input. -/
def isWordA (c : Char) : Bool := isAlphaA c || isDigitA c || c = uscoreC

/-- Python regex whitespace (class s) / `str.strip` characters:
space, tab, newline, carriage return, vertical tab, form feed. -/
def isSpaceA (c : Char) : Bool :=
  c = ' ' || c = tabC || c = nlC || c = crC || c.val = 11 || c.val = 12

/-- Case-insensitive character comparison (re.IGNORECASE on ASCII). -/
def ciEq (a b : Char) : Bool := a.toLower = b.toLower

/-- Roman-numeral character of the class [IVX] under IGNORECASE. -/
def romanA (c : Char) : Bool :=
  let l := c.toLower
  l = 'i' || l = 'v' || l = 'x'

/-- A word boundary test for the position whose preceding character is `prev`
(`none` at the start of the string), assuming the next character is a word
character: the boundary holds iff the previous character is absent or
a non-word character. -/
def boundaryB : Option Char → Bool
  | none => true
  | some c => !isWordA c

/-- True when the remaining input starts with a non-word character or is empty:
the regex boundary after a word character. -/
def headNonWord : List Char → Bool
  | [] => true
  | c :: _ => !isWordA c

/-- Case-insensitively drop the literal `kw` from the front of `s`
(regex literal under IGNORECASE); `none` when `s` does not start with it. -/
def dropCI : List Char → List Char → Option (List Char)
  | [], s => some s
  | _ :: _, [] => none
  | k :: ks, c :: cs => if ciEq k c then dropCI ks cs else none

/-- Case-sensitively drop the literal `kw` from the front of `s`. -/
def dropLit : List Char → List Char → Option (List Char)
  | [], s => some s
  | _ :: _, [] => none
  | k :: ks, c :: cs => if k = c then dropLit ks cs else none

/-- Substring containment, Python's `needle in haystack` on strings. -/
def containsSub (needle : List Char) : List Char → Bool
  | [] => needle.isPrefixOf ([] : List Char)
  | c :: cs => needle.isPrefixOf (c :: cs) || containsSub needle cs

/-- Python `str.strip()` on a character list: drop whitespace from both ends. -/
def pyStripL (cs : List Char) : List Char :=
  ((cs.dropWhile isSpaceA).reverse.dropWhile isSpaceA).reverse

/-- Python `str.strip()`. -/
def pyStrip (s : String) : String := String.mk (pyStripL s.toList)

/-- Python `str.upper()` on ASCII input, as a character list. -/
def upperL (s : String) : List Char := s.toList.map Char.toUpper

/-- Number of whitespace-separated words, `len(s.split())`. -/
def wordsCount (cs : List Char) : Nat :=
  (cs.foldl
    (fun (st : Bool × Nat) c =>
      if isSpaceA c then (false, st.2)
      else if st.1 then st else (true, st.2 + 1))
    (false, 0)).2

/-! ## Data model: PyMuPDF span/line/block dictionaries -/

/-- A text span; only the `text` field is read by the core. -/
structure Span where
  text : String
deriving DecidableEq

/-- A block line: `{"spans": [...]}`. -/
structure BLine where
  spans : List Span
deriving DecidableEq

/-- A PyMuPDF block: `{"type": 0|1, "lines": [...]}`.  Only `type == 0`
(text) blocks participate. -/
structure Block where
  type : Int
  lines : List BLine
deriving DecidableEq

/-- Build a text block with one span per line, as the repository's tests do. -/
def mkBlock (lineTexts : List String) : Block :=
  ⟨0, lineTexts.map fun t => ⟨[⟨t⟩]⟩⟩

/-- One single-span-per-line text block per inner list. -/
def mkBlocks (ls : List (List String)) : List Block :=
  ls.map mkBlock

/-- `ContentClassifier._extract_lines` (content_classifier.py lines 141-148):
keep text blocks, join each line's span texts, strip, drop empties.
`StructuralSegmenter._tokenise` iterates blocks/lines/spans with exactly the
same loop (structural_segmenter.py lines 37-41). -/
def extractLines (blocks : List Block) : List String :=
  blocks.flatMap fun b =>
    if b.type ≠ 0 then []
    else b.lines.filterMap fun l =>
      let txt := pyStrip (String.join (l.spans.map Span.text))
      if txt = "" then none else some txt

/-! ## Classifier regex predicates (content_classifier.py lines 16-26)

Each predicate decides whether `pattern.search(t)` (or `.match(t)`) finds a
match in the stripped line `t`, translated from the compiled pattern with
Python backtracking semantics. -/

/-- Generic position scanner: `m prev suffix` decides a match anchored at the
position whose preceding character is `prev`; `re.search` succeeds iff some
position matches. -/
def searchAnyAux (m : Option Char → List Char → Bool) : Option Char → List Char → Bool
  | prev, [] => m prev []
  | prev, c :: cs => m prev (c :: cs) || searchAnyAux m (some c) cs

/-- Match of `\bKW\s+([IVX]+|\d+)\b` anchored at the current position,
returning the match length.  IGNORECASE applies to the keyword and to the
class [IVX].  The alternation is tried roman-first; since roman characters and
digits are word characters, only the maximal run can satisfy the trailing
word boundary, which the greedy quantifier reaches first. -/
def kwNumMatchAt (kw : List Char) (prev : Option Char) (s : List Char) : Option Nat :=
  if !boundaryB prev then none
  else
    match dropCI kw s with
    | none => none
    | some rest =>
      let ws := rest.takeWhile isSpaceA
      if ws.length = 0 then none
      else
        let rest2 := rest.drop ws.length
        let rom := rest2.takeWhile romanA
        if rom.length ≥ 1 && headNonWord (rest2.drop rom.length) then
          some (kw.length + ws.length + rom.length)
        else
          let dig := rest2.takeWhile isDigitA
          if dig.length ≥ 1 && headNonWord (rest2.drop dig.length) then
            some (kw.length + ws.length + dig.length)
          else none

/-- `_ACT_RE.search`: `\bACT\s+([IVX]+|\d+)\b`, IGNORECASE. -/
def actSearchB (cs : List Char) : Bool :=
  searchAnyAux (fun p t => (kwNumMatchAt "ACT".toList p t).isSome) none cs

/-- `_SCENE_RE.search`: `\bSCENE\s+([IVX]+|\d+)\b`, IGNORECASE. -/
def sceneSearchB (cs : List Char) : Bool :=
  searchAnyAux (fun p t => (kwNumMatchAt "SCENE".toList p t).isSome) none cs

/-- Character class of the cue pattern's middle: uppercase, whitespace,
apostrophe or period. -/
def cueCls (c : Char) : Bool := isUpperA c || isSpaceA c || c = aposC || c = dotC

/-- Tail of the cue pattern after the final uppercase letter: an optional
period, then whitespace to the end of the string. -/
def cueTailOk (t : List Char) : Bool :=
  t.all isSpaceA ||
    (match t with
     | c :: r => c = dotC && r.all isSpaceA
     | [] => false)

/-- `_CUE_RE.match`: anchored match against the whole line.  The middle
quantifier is tried at every admissible length (backtracking). -/
def cueMatchB (cs : List Char) : Bool :=
  match cs with
  | [] => false
  | c :: rest =>
    isUpperA c &&
      (List.range' 1 28).any fun k =>
        decide (k ≤ rest.length) && (rest.take k).all cueCls &&
          (match rest.drop k with
           | d :: tail => isUpperA d && cueTailOk tail
           | [] => false)

/-- `_STAGE_RE.search`: with `^` and no MULTILINE the pattern only matches at
position 0, so this equals an anchored full match: an opening bracket, any
non-newline characters, a closing bracket at the very end. -/
def stageMatchB (cs : List Char) : Bool :=
  match cs with
  | [] => false
  | c :: rest =>
    (c = lbrkC || c = lparC) &&
      (match rest.getLast? with
       | some d => (d = rbrkC || d = rparC) && rest.dropLast.all (fun x => x ≠ nlC)
       | none => false)

/-- The alternation `Enter|Exit|Exeunt|Aside|to\s+\w+` (IGNORECASE) dropped
from the front of `rest`; returns the remainder after the shortest viable
consumption (enough for the existence of the closing parenthesis, since
`[^)]*` absorbs anything that is not a closing parenthesis). -/
def svAltRest (rest : List Char) : Option (List Char) :=
  match dropCI "Enter".toList rest with
  | some r => some r
  | none =>
    match dropCI "Exit".toList rest with
    | some r => some r
    | none =>
      match dropCI "Exeunt".toList rest with
      | some r => some r
      | none =>
        match dropCI "Aside".toList rest with
        | some r => some r
        | none =>
          match dropCI "to".toList rest with
          | some r =>
            let ws := r.takeWhile isSpaceA
            if ws.length ≥ 1 then
              match r.drop ws.length with
              | d :: r2 => if isWordA d then some r2 else none
              | [] => none
            else none
          | none => none

/-- Match of `_STAGE_VERB` anchored at the current position: an opening
parenthesis, one of the verb cues, then `[^)]*\)` — which succeeds iff a
closing parenthesis occurs anywhere in the remainder. -/
def stageVerbAt (s : List Char) : Bool :=
  match s with
  | [] => false
  | c :: rest =>
    c = lparC &&
      (match svAltRest rest with
       | some r => r.contains rparC
       | none => false)

/-- `_STAGE_VERB.search`. -/
def stageVerbSearchB (cs : List Char) : Bool :=
  searchAnyAux (fun _ t => stageVerbAt t) none cs

/-- Match of `_CAST_RE` anchored at the current position:
`(DRAMATIS|CAST OF|LIST OF)\s+(PERSONAE|CHARACTERS)`, IGNORECASE.  The group-2
literals start with letters, so only the maximal whitespace run can precede
them. -/
def castAt (s : List Char) : Bool :=
  ["DRAMATIS".toList, "CAST OF".toList, "LIST OF".toList].any fun kw =>
    match dropCI kw s with
    | some r =>
      let ws := r.takeWhile isSpaceA
      decide (ws.length ≥ 1) &&
        (let r2 := r.drop ws.length
         (dropCI "PERSONAE".toList r2).isSome || (dropCI "CHARACTERS".toList r2).isSome)
    | none => false

/-- `_CAST_RE.search`. -/
def castSearchB (cs : List Char) : Bool :=
  searchAnyAux (fun _ t => castAt t) none cs

/-- Match of the classifier's `_CHAPTER_RE` anchored at the current position:
`\b(CHAPTER|PROLOGUE|EPILOGUE|PART)\s+([\dIVX]+|[A-Z][a-z]+)?\b`, IGNORECASE.
Because group 2 is optional and its alternatives begin with word characters,
a match exists iff after the keyword and a maximal nonempty whitespace run the
next character is a word character (then the empty group-2 alternative already
satisfies the final boundary). -/
def chapAt (prev : Option Char) (s : List Char) : Bool :=
  boundaryB prev &&
    ["CHAPTER".toList, "PROLOGUE".toList, "EPILOGUE".toList, "PART".toList].any fun kw =>
      match dropCI kw s with
      | some r =>
        let ws := r.takeWhile isSpaceA
        decide (ws.length ≥ 1) &&
          (match r.drop ws.length with
           | d :: _ => isWordA d
           | [] => false)
      | none => false

/-- `_CHAPTER_RE.search` (classifier variant, not anchored to line start). -/
def chapSearchB (cs : List Char) : Bool :=
  searchAnyAux chapAt none cs

/-- Match of `_FIRST_PERS` anchored at the current position:
`\bI\b(?:'[a-z]+)?\s` (case-sensitive).  Returns the match length.  The
optional group is greedy: Python first tries apostrophe + maximal lowercase
run + one whitespace, then falls back to bare `I` + one whitespace. -/
def fpMatchAt (prev : Option Char) (s : List Char) : Option Nat :=
  match s with
  | [] => none
  | c :: rest =>
    if boundaryB prev && c = 'I' then
      match rest with
      | [] => none
      | d :: rest2 =>
        if isWordA d then none
        else
          let grp : Option Nat :=
            if d = aposC then
              let run := rest2.takeWhile isLowerA
              if run.length ≥ 1 then
                match rest2.drop run.length with
                | e :: _ => if isSpaceA e then some (2 + run.length + 1) else none
                | [] => none
              else none
            else none
          match grp with
          | some n => some n
          | none => if isSpaceA d then some 2 else none
    else none

/-- Count of non-overlapping `_FIRST_PERS.findall` matches, scanning left to
right and resuming after each match end.  `fuel` bounds the recursion by the
remaining length; every step consumes at least one character. -/
def fpCountAux : Nat → Option Char → List Char → Nat
  | 0, _, _ => 0
  | _ + 1, _, [] => 0
  | fuel + 1, prev, c :: cs =>
    match fpMatchAt prev (c :: cs) with
    | some len =>
      let adv := max len 1
      1 + fpCountAux fuel ((c :: cs).get? (adv - 1)) ((c :: cs).drop adv)
    | none => fpCountAux fuel (some c) cs

/-- `len(_FIRST_PERS.findall(t))`. -/
def fpCount (cs : List Char) : Nat := fpCountAux (cs.length + 1) none cs

/-- Match of `_SAID_RE` anchored at the current position:
`\b(said|replied|whispered|shouted|murmured|asked)\b`, case-sensitive. -/
def saidAt (prev : Option Char) (s : List Char) : Bool :=
  boundaryB prev &&
    ["said".toList, "replied".toList, "whispered".toList, "shouted".toList,
     "murmured".toList, "asked".toList].any fun w =>
      match dropLit w s with
      | some r => headNonWord r
      | none => false

/-- `_SAID_RE.search`. -/
def saidSearchB (cs : List Char) : Bool :=
  searchAnyAux saidAt none cs

/-- Character class of the prose pattern's middle: lowercase, whitespace,
comma or semicolon. -/
def proseCls (c : Char) : Bool := isLowerA c || isSpaceA c || c = commaC || c = semiC

/-- Match of `_PROSE_RE` anchored at the current position:
`[a-z][a-z\s,;]{60,}[.!?]`.  The terminators are outside the middle class, so
only the maximal class run can be followed by one. -/
def proseAt (s : List Char) : Bool :=
  match s with
  | [] => false
  | c :: rest =>
    isLowerA c &&
      (let run := rest.takeWhile proseCls
       decide (run.length ≥ 60) &&
         (match rest.drop run.length with
          | d :: _ => d = dotC || d = bangC || d = questC
          | [] => false))

/-- `_PROSE_RE.search`. -/
def proseSearchB (cs : List Char) : Bool :=
  searchAnyAux (fun _ t => proseAt t) none cs

/-! ## ContentClassifier.classify (content_classifier.py lines 73-139) -/

/-- The `signals` dictionary: one count per known signal key
(content_classifier.py line 75 initialises every key to 0).  The loop never
increments `stage_verb`: the stage-direction branch (lines 95-97) tests both
stage patterns but always increments `stage_direction`. -/
structure Signals where
  act_heading : Nat := 0
  scene_heading : Nat := 0
  character_cue : Nat := 0
  stage_direction : Nat := 0
  cast_page : Nat := 0
  stage_verb : Nat := 0
  chapter_heading : Nat := 0
  first_person : Nat := 0
  said_tag : Nat := 0
  prose_sentence : Nat := 0
deriving DecidableEq

/-- Accumulated scores of the per-line loop. -/
structure Scores where
  play_score : ℚ := 0
  novel_score : ℚ := 0
  signals : Signals := {}
deriving DecidableEq

/-- One line's contribution to `play_score`: the per-line loop performs five
independent `if pattern: play_score += weight` updates (lines 86-100), so the
new score is the old one plus the sum of the matched weights
(act 8.0, scene 8.0, cue 2.0 guarded by `len(t.split()) <= 5`,
stage 3.0, cast 10.0). -/
def playDelta (cs : List Char) : ℚ :=
  (if actSearchB cs then 8 else 0) + (if sceneSearchB cs then 8 else 0) +
  (if cueMatchB cs ∧ wordsCount cs ≤ 5 then 2 else 0) +
  (if stageMatchB cs ∨ stageVerbSearchB cs then 3 else 0) +
  (if castSearchB cs then 10 else 0)

/-- One line's contribution to `novel_score` (lines 102-116): chapter 6.0;
then, with the intro multiplier `p_mult` (0.2 within the first 10% of lines,
else 1.0): `fp * 0.3 * p_mult` first-person hits, said 0.5 ⬝ p_mult, prose
0.1 ⬝ p_mult.  The `if fp:` guard is vacuous for the score (fp = 0 adds 0);
`pmQ` is the multiplier. -/
def pmQ (isIntro : Bool) : ℚ := if isIntro then 1/5 else 1

def novelDelta (isIntro : Bool) (cs : List Char) : ℚ :=
  (if chapSearchB cs then 6 else 0) +
  (fpCount cs : ℚ) * (3/10) * pmQ isIntro +
  (if saidSearchB cs then (1/2) * pmQ isIntro else 0) +
  (if proseSearchB cs then (1/10) * pmQ isIntro else 0)

/-- One line's signal increments (the `signals[...] += 1` / `+= fp` updates
paired with the score updates above). -/
def sigStep (cs : List Char) (g : Signals) : Signals :=
  { g with
    act_heading := g.act_heading + (if actSearchB cs then 1 else 0)
    scene_heading := g.scene_heading + (if sceneSearchB cs then 1 else 0)
    character_cue := g.character_cue + (if cueMatchB cs ∧ wordsCount cs ≤ 5 then 1 else 0)
    stage_direction := g.stage_direction + (if stageMatchB cs ∨ stageVerbSearchB cs then 1 else 0)
    cast_page := g.cast_page + (if castSearchB cs then 1 else 0)
    chapter_heading := g.chapter_heading + (if chapSearchB cs then 1 else 0)
    first_person := g.first_person + fpCount cs
    said_tag := g.said_tag + (if saidSearchB cs then 1 else 0)
    prose_sentence := g.prose_sentence + (if proseSearchB cs then 1 else 0) }

/-- One iteration of the per-line loop (lines 80-116): re-strip the line
(`if not t: continue` is vacuous after `_extract_lines` but kept), compute
`is_intro = idx < line_count * 0.1`, add the deltas. -/
def scoreLine (n : Nat) (idx : Nat) (acc : Scores) (text : String) : Scores :=
  let t := pyStrip text
  if t = "" then acc
  else
    let cs := t.toList
    let isIntro : Bool := decide ((idx : ℚ) < (n : ℚ) * (1/10))
    ⟨acc.play_score + playDelta cs, acc.novel_score + novelDelta isIntro cs,
     sigStep cs acc.signals⟩

/-- The whole `for idx, text in enumerate(lines)` loop. -/
def scoreLinesAux (n : Nat) : Nat → Scores → List String → Scores
  | _, acc, [] => acc
  | idx, acc, l :: rest => scoreLinesAux n (idx + 1) (scoreLine n idx acc l) rest

/-- Scores and signals accumulated by `classify` over the extracted lines. -/
def scoresOf (blocks : List Block) : Scores :=
  scoreLinesAux (extractLines blocks).length 0 {} (extractLines blocks)

/-- Python `round(x)`: round half to even, as an integer. -/
def pyRound (q : ℚ) : ℤ :=
  let f := ⌊q⌋
  let r := q - (f : ℚ)
  if r < 1/2 then f
  else if 1/2 < r then f + 1
  else if f % 2 = 0 then f else f + 1

/-- Python `round(x, 3)`: round half to even at three decimals. -/
def pyRound3 (q : ℚ) : ℚ := (pyRound (q * 1000) : ℚ) / 1000

/-- The classifier's result record.  `ml_probabilities` is omitted: with no
model file shipped it is the constant `{play: 0.0, novel: 0.0}`. -/
structure ClassificationResult where
  type : String
  confidence : ℚ
  play_score : ℚ
  novel_score : ℚ
  signals : Signals
deriving DecidableEq

/-- `ContentClassifier.classify` (lines 73-139).  `MIN_EVIDENCE = 2.0`.
Decision order: strict structural override (line 130), insufficient evidence
(line 134), score comparison with 3-decimal confidence (lines 137-139). -/
def classify (blocks : List Block) : ClassificationResult :=
  if (1 ≤ (scoresOf blocks).signals.act_heading ∧ 1 ≤ (scoresOf blocks).signals.scene_heading)
      ∨ 3 ≤ (scoresOf blocks).signals.act_heading then
    ⟨"play", 95/100, (scoresOf blocks).play_score, (scoresOf blocks).novel_score,
     (scoresOf blocks).signals⟩
  else if (scoresOf blocks).play_score + (scoresOf blocks).novel_score < 2 then
    ⟨"generic", 1/2, (scoresOf blocks).play_score, (scoresOf blocks).novel_score,
     (scoresOf blocks).signals⟩
  else
    ⟨if (scoresOf blocks).play_score > (scoresOf blocks).novel_score then "play" else "novel",
     pyRound3 (max (scoresOf blocks).play_score (scoresOf blocks).novel_score /
       ((scoresOf blocks).play_score + (scoresOf blocks).novel_score)),
     (scoresOf blocks).play_score, (scoresOf blocks).novel_score, (scoresOf blocks).signals⟩

/-! ## StructuralSegmenter._tokenise (structural_segmenter.py lines 35-86) -/

/-- A token dictionary: `{"type": "heading", "level", "title", "inferred"}` or
`{"type": "content", "text"}`. -/
inductive Token where
  | heading (level : String) (title : String) (inferred : Bool)
  | content (text : String)
deriving DecidableEq

/-- Token `"type"` test. -/
def isHeadingTok : Token → Bool
  | Token.heading _ _ _ => true
  | Token.content _ => false

/-- `tokens[j].get("text", "")`: heading tokens have no `text` key. -/
def tokText : Token → String
  | Token.heading _ _ _ => ""
  | Token.content t => t

/-- Generic `re.finditer` over a matcher that returns the match length at a
position:  scan left to right, emit non-overlapping spans, resume after
each match end.  `fuel` bounds the recursion by the remaining length plus one;
every step consumes at least one character, so `length + 1` fuel is exact. -/
def finditerGo (m : Option Char → List Char → Option Nat) :
    Nat → Nat → Option Char → List Char → List (Nat × Nat)
  | 0, _, _, _ => []
  | _ + 1, _, _, [] => []
  | fuel + 1, pos, prev, c :: cs =>
    match m prev (c :: cs) with
    | some len =>
      let adv := max len 1
      (pos, pos + len) ::
        finditerGo m fuel (pos + adv) ((c :: cs).get? (adv - 1)) ((c :: cs).drop adv)
    | none => finditerGo m fuel (pos + 1) (some c) cs

/-- `_SMUSHED_ACT_RE.finditer(line_txt)` spans. -/
def actSpans (cs : List Char) : List (Nat × Nat) :=
  finditerGo (kwNumMatchAt "ACT".toList) (cs.length + 1) 0 none cs

/-- `_SMUSHED_SCENE_RE.finditer(line_txt)` spans. -/
def sceneSpans (cs : List Char) : List (Nat × Nat) :=
  finditerGo (kwNumMatchAt "SCENE".toList) (cs.length + 1) 0 none cs

/-- The tail of the novel `_CHAPTER_RE` after the keyword:
`\s+([\dIVX]+|[A-Z][a-z]+)?\b` — returns the number of characters consumed.
Group 2's first alternative is the single class `[\dIVX]+` (digits and roman
letters mixed, IGNORECASE); the second is letter + letters under IGNORECASE;
when both fail, the empty alternative needs a word character right after the
maximal whitespace run. -/
def chapTailLen (rest : List Char) : Option Nat :=
  let ws := rest.takeWhile isSpaceA
  if ws.length = 0 then none
  else
    let r2 := rest.drop ws.length
    let cls := fun c => isDigitA c || romanA c
    let runA := r2.takeWhile cls
    if runA.length ≥ 1 && headNonWord (r2.drop runA.length) then
      some (ws.length + runA.length)
    else
      let fallbackEmpty : Option Nat :=
        match r2 with
        | d :: _ => if isWordA d then some ws.length else none
        | [] => none
      match r2 with
      | d :: r3 =>
        if isAlphaA d then
          let runB := r3.takeWhile isAlphaA
          if runB.length ≥ 1 && headNonWord (r3.drop runB.length) then
            some (ws.length + 1 + runB.length)
          else fallbackEmpty
        else fallbackEmpty
      | [] => fallbackEmpty

/-- First success of `f` along a list. -/
def firstSome (f : Nat → Option Nat) : List Nat → Option Nat
  | [] => none
  | q :: qs =>
    match f q with
    | some v => some v
    | none => firstSome f qs

/-- The segmenter's `_CHAPTER_RE` is anchored with `^(?:[\d\s]*)?`, so it can
only match at position 0; the greedy optional prefix of digits/whitespace
backtracks from its maximal run down to the empty prefix; the boundary before
the keyword requires the preceding prefix character (if any) to be whitespace
(a digit is a word character, and the keywords start with letters).  Returns
the match length (the span is `(0, len)`, prefix included). -/
def chapterMatchLen (cs : List Char) : Option Nat :=
  let pre := cs.takeWhile fun c => isDigitA c || isSpaceA c
  firstSome
    (fun q =>
      let okBoundary : Bool :=
        q == 0 || (match cs.get? (q - 1) with
                   | some c => isSpaceA c
                   | none => false)
      if okBoundary then
        ["CHAPTER".toList, "PROLOGUE".toList, "EPILOGUE".toList, "PART".toList].firstM
          (fun kw =>
            match dropCI kw (cs.drop q) with
            | some rest => (chapTailLen rest).map fun extra => q + kw.length + extra
            | none => none)
      else none)
    ((List.range (pre.length + 1)).reverse)

/-- `_CHAPTER_RE.finditer` spans: at most the one anchored match. -/
def chapterSpans (cs : List Char) : List (Nat × Nat) :=
  match chapterMatchLen cs with
  | some len => [(0, len)]
  | none => []

/-- Stable merge of two start-sorted span lists, preferring the first list on
ties: equals Python's stable `matches.sort(key=start)` applied to the
concatenation of the (individually ascending) act and scene finditer outputs
(lines 46-56).  `fuel` bounds the recursion by the total length; every step
consumes one element, so `mergeByStart` supplies exactly enough. -/
def mergeByStartGo :
    Nat → List (String × Nat × Nat) → List (String × Nat × Nat) → List (String × Nat × Nat)
  | 0, xs, ys => xs ++ ys
  | _ + 1, [], ys => ys
  | _ + 1, x :: xs, [] => x :: xs
  | fuel + 1, x :: xs, y :: ys =>
    if x.2.1 ≤ y.2.1 then x :: mergeByStartGo fuel xs (y :: ys)
    else y :: mergeByStartGo fuel (x :: xs) ys

/-- Stable merge at adequate fuel. -/
def mergeByStart (xs ys : List (String × Nat × Nat)) : List (String × Nat × Nat) :=
  mergeByStartGo (xs.length + ys.length) xs ys

/-- `line_txt[a:b]` (indices already clamped non-negative). -/
def pySlice (cs : List Char) (a b : Nat) : List Char := (cs.drop a).take (b - a)

/-- The noise-filter window `line_txt[max(0, start-20):min(len, end+20)]`
(line 67). -/
def windowOf (cs : List Char) (a b : Nat) : List Char :=
  pySlice cs (a - 20) (min cs.length (b + 20))

/-- `any(c.islower() for c in window if c.isalpha())`. -/
def hasLowerAlpha (w : List Char) : Bool :=
  w.any fun c => isAlphaA c && isLowerA c

/-- The literal `"Scene"` tested with Python's case-sensitive `in`. -/
def sceneLit : List Char := "Scene".toList

/-- The per-match noise filter (lines 64-70): discard when the window has
lowercase letters and the literal `"Scene"` occurs in neither the matched
text nor the window. -/
def noisyB (cs : List Char) (a b : Nat) : Bool :=
  hasLowerAlpha (windowOf cs a b) && !containsSub sceneLit (pySlice cs a b) &&
    !containsSub sceneLit (windowOf cs a b)

/-- The filter-and-emit loop over the sorted matches (lines 59-84), carrying
`last_pos`; after the loop, trailing stripped content is emitted. -/
def emitTokens (cs : List Char) : Nat → List (String × Nat × Nat) → List Token
  | lastPos, [] =>
    let after := pyStripL (pySlice cs lastPos cs.length)
    if after = [] then [] else [Token.content (String.mk after)]
  | lastPos, (level, a, b) :: rest =>
    if noisyB cs a b then emitTokens cs lastPos rest
    else
      let before := pyStripL (pySlice cs lastPos a)
      (if before = [] then [] else [Token.content (String.mk before)]) ++
        Token.heading level (String.mk (pySlice cs a b)) false :: emitTokens cs b rest

/-- Tokens of one (already stripped, nonempty) line. -/
def lineTokens (docType : String) (line : String) : List Token :=
  let cs := line.toList
  let ms :=
    if docType = "play" then
      mergeByStart ((actSpans cs).map fun p => ("act", p.1, p.2))
        ((sceneSpans cs).map fun p => ("scene", p.1, p.2))
    else (chapterSpans cs).map fun p => ("chapter", p.1, p.2)
  emitTokens cs 0 ms

/-- `StructuralSegmenter._tokenise`: the block/line iteration is identical to
`_extract_lines`, then each line is scanned and emitted. -/
def tokenise (blocks : List Block) (docType : String) : List Token :=
  (extractLines blocks).flatMap (lineTokens docType)

/-! ## Content blocks and unit nodes -/

/-- `_analyse_play_content` block dictionaries.  A stage direction's
`character` is `None` in consumers; only the tagged content matters here. -/
inductive CBlock where
  | dialogue (character : String) (content : String)
  | stageDirection (content : String)
  | narrative (content : String)
deriving DecidableEq

/-- A scene node `{"id", "title", "blocks"}`.  `_uid()` ids are omitted;
`inferred` is an `Option` because the builder never writes that key
(`none` = key absent). -/
structure SceneU where
  title : String
  blocks : List CBlock
  inferred : Option Bool := none
deriving DecidableEq

/-- An act node `{"id", "title", "children"}`; same conventions. -/
structure ActU where
  title : String
  children : List SceneU
  inferred : Option Bool := none
deriving DecidableEq

/-- A novel section `{"id", "title": "", "paragraphs"}`; the `content` key is
only written by the final rollup (`none` = key absent). -/
structure SectionU where
  title : String
  paragraphs : List String
  content : Option String := none
deriving DecidableEq

/-- A novel chapter `{"id", "title", "children"}`. -/
structure ChapterU where
  title : String
  children : List SectionU
deriving DecidableEq

/-- Append a line to the last block if it is a dialogue, with the space rule
`content += (" " + line if content else line)`; otherwise start a narrative
block (structural_segmenter.py lines 226-229 and 236-240). -/
def appendLine (acc : List CBlock) (line : String) : List CBlock :=
  match acc.getLast? with
  | some (CBlock.dialogue ch ct) =>
    acc.dropLast ++ [CBlock.dialogue ch (if ct = "" then line else ct ++ " " ++ line)]
  | _ => acc ++ [CBlock.narrative line]

/-- `_analyse_play_content` (lines 220-241): cue lines open dialogue blocks,
bracket-initial lines are stage directions, lines over 1000 characters skip
the pattern tests, anything else continues dialogue or starts narrative. -/
def analysePlayContent (lines : List String) : List CBlock :=
  lines.foldl
    (fun acc line =>
      if line.length > 1000 then appendLine acc line
      else if cueMatchB line.toList then acc ++ [CBlock.dialogue line ""]
      else if (match line.toList with
               | c :: _ => c = lbrkC || c = lparC
               | [] => false) then acc ++ [CBlock.stageDirection line]
      else appendLine acc line)
    []

/-! ## TOC cluster detection (lines 129-142) -/

/-- `tokens[j]["type"] == "heading"` at index `j`. -/
def isHeadingIdx (toks : List Token) (j : Nat) : Bool :=
  match toks.get? j with
  | some t => isHeadingTok t
  | none => false

/-- The heading indices of the window `range(i, min(i+8, n))` (line 135-136). -/
def clusterIdx (toks : List Token) (i : Nat) : List Nat :=
  (List.range' i (min (i + 8) toks.length - i)).filter (isHeadingIdx toks)

/-- `sum(len(tokens[j].get("text", "")) for j in range(first, last) if
tokens[j]["type"] == "content")` (line 139). -/
def contentLenBetween (toks : List Token) (first last : Nat) : Nat :=
  ((List.range' first (last - first)).map fun j =>
    match toks.get? j with
    | some (Token.content txt) => txt.length
    | _ => 0).sum

/-- Whether the window anchored at heading index `i` qualifies as a TOC
cluster: at least 4 headings in the next up-to-8 tokens and fewer than 200
content characters between the window's first and last heading
(lines 132-140). -/
def tocQualifies (toks : List Token) (i : Nat) : Bool :=
  isHeadingIdx toks i &&
    (let cl := clusterIdx toks i
     decide (4 ≤ cl.length) &&
       decide (contentLenBetween toks (cl.headD 0) (cl.getLastD 0) < 200))

/-- The accumulated `toc_indices` set, as a membership list (lines 130-142). -/
def tocIndices (toks : List Token) : List Nat :=
  (List.range toks.length).foldr
    (fun i acc => if tocQualifies toks i then clusterIdx toks i ++ acc else acc) []

/-! ## Play hierarchy builder (lines 116-204) -/

/-- The loop's mutable state: emitted acts, the open act and scene, the
content buffer and the `first_heading_found` flag. -/
structure PState where
  acts : List ActU
  curAct : Option ActU
  curScene : Option SceneU
  buffer : List String
  firstHeadingFound : Bool
deriving DecidableEq

/-- Initial state. -/
def initPState : PState := ⟨[], none, none, [], false⟩

/-- `flush()` (lines 121-124): move buffered content into the open scene's
blocks; a buffer with no open scene survives. -/
def flushS (s : PState) : PState :=
  match s.curScene with
  | some sc =>
    if s.buffer.isEmpty then s
    else
      { s with
        curScene := some { sc with blocks := sc.blocks ++ analysePlayContent s.buffer }
        buffer := [] }
  | none => s

/-- The act-repeat filter (line 152): skip when the arriving title, uppercased,
is a substring of the open act's uppercased title. -/
def actRepeatB : Option ActU → String → Bool
  | some a, title => containsSub (upperL title) (upperL a.title)
  | none, _ => false

/-- The `is_scened_act` computation (structural_segmenter.py lines 156-157):
`next_t = tokens[i+1] if i+1 < num_tokens else None` followed by
`t["level"] == "act" and next_t and next_t["level"] == "scene"`.  The guarded
branch (lines 159-165) has body `pass`, so the VALUE is discarded — but the
evaluation itself raises KeyError when the heading's level is "act" and the
next token is a content token, whose dict has no "level" key.  `none` models
the raise.  (When `next_t` is None the Python expression short-circuits to the
falsy None; the value being unused, it is modelled as `some false`.) -/
def isScenedActEval (toks : List Token) (i : Nat) (level : String) : Option Bool :=
  if level = "act" then
    match toks.get? (i + 1) with
    | some (Token.heading lvl2 _ _) => some (lvl2 = "scene")
    | some (Token.content _) => none
    | none => some false
  else some false

/-- One iteration of the main loop (lines 144-195) for token `t` at index `i`.
`none` propagates the KeyError that evaluating `is_scened_act` (lines 156-157)
raises on a surviving act heading immediately followed by a content token; the
two `continue`s (TOC skip at line 148, act-repeat at line 152) run before that
point. -/
def playStep (toks : List Token) (toc : List Nat) (s : PState) (i : Nat) (t : Token) :
    Option PState :=
  match t with
  | Token.heading level title _ =>
    if toc.contains i then some s
    else if level = "act" ∧ actRepeatB s.curAct title then some s
    else
      match isScenedActEval toks i level with
      | none => none
      | some _ =>
      let s1 :=
        if level = "scene" ∧ s.curAct.isNone then
          { s with curAct := some ⟨"ACT I", [], none⟩ }
        else s
      let s2 := { s1 with firstHeadingFound := true }
      if level = "act" then
        let s3 := flushS s2
        match s3.curAct with
        | some a =>
          if ¬a.children.isEmpty ∨ ¬s3.buffer.isEmpty then
            let a2 :=
              match s3.curScene with
              | some sc => { a with children := a.children ++ [sc] }
              | none => a
            some { s3 with
              acts := s3.acts ++ [a2], curAct := some ⟨title, [], none⟩, curScene := none }
          else some s3
        | none => some { s3 with curAct := some ⟨title, [], none⟩, curScene := none }
      else if level = "scene" then
        let s3 := flushS s2
        let s4 :=
          match s3.curAct, s3.curScene with
          | some a, some sc => { s3 with curAct := some { a with children := a.children ++ [sc] } }
          | _, _ => s3
        some { s4 with curScene := some ⟨title, [], none⟩ }
      else some s2
  | Token.content text =>
    if ¬s.firstHeadingFound then some s
    else
      match s.curAct with
      | none => some s
      | some _ =>
        let s1 :=
          if s.curScene.isNone then { s with curScene := some ⟨"Scene 1", [], none⟩ } else s
        some { s1 with buffer := s1.buffer ++ [text] }

/-- `_fallback_single_unit` (lines 202-204): one synthetic act from all
content-token texts.  No `inferred` key is written. -/
def fallbackSingleUnit (toks : List Token) : List ActU :=
  let text := toks.filterMap fun t =>
    match t with
    | Token.content txt => some txt
    | _ => none
  [⟨"The Play", [⟨"Content", analysePlayContent text, none⟩], none⟩]

/-- End-of-stream closing (lines 197-200) and the fallback. -/
def finishPlay (toks : List Token) (s : PState) : List ActU :=
  let s1 := flushS s
  let s2 :=
    match s1.curAct, s1.curScene with
    | some a, some sc => { s1 with curAct := some { a with children := a.children ++ [sc] } }
    | _, _ => s1
  let acts :=
    match s2.curAct with
    | some a => s2.acts ++ [a]
    | none => s2.acts
  if acts.isEmpty then fallbackSingleUnit toks else acts

/-- `_build_play_hierarchy` (lines 116-200).  `none` is the propagated
KeyError of `is_scened_act` (the function has no handler, so an exception
aborts the whole build and no hierarchy is returned). -/
def buildPlayHierarchy (toks : List Token) : Option (List ActU) :=
  (toks.enum.foldl
      (fun os p => os.bind fun s => playStep toks (tocIndices toks) s p.1 p.2)
      (some initPState)).map
    (finishPlay toks)

/-! ## Novel hierarchy builder (lines 206-218) -/

/-- A fresh chapter with its single implicit section (line 208 / 212). -/
def newChapter (title : String) : ChapterU := ⟨title, [⟨"", [], none⟩]⟩

/-- `cur_chapter["children"][0]["paragraphs"]` — the chapter's children list
is always the singleton implicit section; the code indexes position 0. -/
def chapFirstParas (c : ChapterU) : List String :=
  match c.children with
  | s :: _ => s.paragraphs
  | [] => []

/-- Append a paragraph to the chapter's first section. -/
def chapAppendPara (c : ChapterU) (p : String) : ChapterU :=
  match c.children with
  | s :: rest => ⟨c.title, { s with paragraphs := s.paragraphs ++ [p] } :: rest⟩
  | [] => c

/-- One iteration of the novel loop (lines 209-214).  A heading whose level is
not `"chapter"` matches neither branch and is skipped. -/
def novelStep (st : List ChapterU × ChapterU) (t : Token) : List ChapterU × ChapterU :=
  match t with
  | Token.heading level title _ =>
    if level = "chapter" then
      if ¬(chapFirstParas st.2).isEmpty then (st.1 ++ [st.2], newChapter title)
      else (st.1, newChapter title)
    else st
  | Token.content text => (st.1, chapAppendPara st.2 text)

/-- `_build_novel_hierarchy` (lines 206-218): accumulate from the synthetic
"Beginning" chapter, emit paragraph-bearing chapters, then write each emitted
section's `content` rollup. -/
def buildNovelHierarchy (toks : List Token) : List ChapterU :=
  let st := toks.foldl novelStep ([], newChapter "Beginning")
  let chapters := if ¬(chapFirstParas st.2).isEmpty then st.1 ++ [st.2] else st.1
  chapters.map fun c =>
    { c with
      children := c.children.map fun s =>
        { s with content := some (String.intercalate "\n\n" s.paragraphs) } }

/-- The two segmenter outputs (the Python function returns dictionaries of
either shape depending on `doc_type`). -/
inductive SegResult where
  | play (units : List ActU)
  | novel (chapters : List ChapterU)
deriving DecidableEq

/-- `StructuralSegmenter.segment` (lines 28-33), named `segmentB` here to
avoid clashing with Mathlib: tokenise with the pattern set
selected by `doc_type`, then dispatch — every non-"play" type (novel, generic)
uses the novel builder.  `none` is the uncaught KeyError escaping the play
builder. -/
def segmentB (blocks : List Block) (docType : String) : Option SegResult :=
  let toks := tokenise blocks docType
  if docType = "play" then (buildPlayHierarchy toks).map SegResult.play
  else some (SegResult.novel (buildNovelHierarchy toks))

/-! ## Concrete token streams used by the claim analyses -/
/-- Four adjacent chapter headings followed by one short content token: the
window anchored at index 0 holds 4 headings with 0 content characters
between the first and last, a TOC cluster by the detection rule. -/
def chapterClusterToks : List Token :=
  [Token.heading "chapter" "CHAPTER 1" false, Token.heading "chapter" "CHAPTER 2" false,
   Token.heading "chapter" "CHAPTER 3" false, Token.heading "chapter" "CHAPTER 4" false,
   Token.content "x"]
/-- Four adjacent act headings followed by content: a TOC cluster for the play
builder. -/
def actClusterToks : List Token :=
  [Token.heading "act" "ACT I" false, Token.heading "act" "ACT II" false,
   Token.heading "act" "ACT III" false, Token.heading "act" "ACT IV" false,
   Token.content "x"]
/-- A play token stream in which act "ACT III" arrives while act "ACT I" is
open and populated; no TOC window of 8 tokens holds 4 headings, so nothing is
suppressed. -/
def actRenameToks : List Token :=
  [Token.heading "act" "ACT I" false, Token.heading "scene" "SCENE 1" false] ++
    (["a", "b", "c", "d", "e", "f"].map Token.content) ++
    [Token.heading "scene" "SCENE 2" false, Token.content "g",
     Token.heading "act" "ACT III" false, Token.heading "scene" "SCENE 3" false,
     Token.content "h"]

/-! ## Supporting lemmas -/

/-- The three decision branches of `classify` all carry the loop's signals. -/
theorem classify_signals (blocks : List Block) :
    (classify blocks).signals = (scoresOf blocks).signals := by
  unfold classify
  split
  · rfl
  · split <;> rfl

/-- The three decision branches of `classify` all carry the loop's play score. -/
theorem classify_play_score (blocks : List Block) :
    (classify blocks).play_score = (scoresOf blocks).play_score := by
  unfold classify
  split
  · rfl
  · split <;> rfl

/-- The three decision branches of `classify` all carry the loop's novel score. -/
theorem classify_novel_score (blocks : List Block) :
    (classify blocks).novel_score = (scoresOf blocks).novel_score := by
  unfold classify
  split
  · rfl
  · split <;> rfl

/-- A line whose stripped text matches the act pattern bumps `act_heading`. -/
theorem scoreLine_act_hit (n idx : Nat) (acc : Scores) (l : String)
    (h1 : ¬pyStrip l = "") (h2 : actSearchB (pyStrip l).toList = true) :
    (scoreLine n idx acc l).signals.act_heading = acc.signals.act_heading + 1 := by
  unfold scoreLine sigStep
  simp [h1, h2]
  exact h2

/-- A line whose stripped text matches the scene pattern bumps `scene_heading`. -/
theorem scoreLine_scene_hit (n idx : Nat) (acc : Scores) (l : String)
    (h1 : ¬pyStrip l = "") (h2 : sceneSearchB (pyStrip l).toList = true) :
    (scoreLine n idx acc l).signals.scene_heading = acc.signals.scene_heading + 1 := by
  unfold scoreLine sigStep
  simp [h1, h2]
  exact h2

/-- `act_heading` never decreases across one loop iteration. -/
theorem scoreLine_act_mono (n idx : Nat) (acc : Scores) (l : String) :
    acc.signals.act_heading ≤ (scoreLine n idx acc l).signals.act_heading := by
  unfold scoreLine sigStep
  dsimp only
  split
  · exact le_refl _
  · dsimp only
    split <;> omega

/-- `scene_heading` never decreases across one loop iteration. -/
theorem scoreLine_scene_mono (n idx : Nat) (acc : Scores) (l : String) :
    acc.signals.scene_heading ≤ (scoreLine n idx acc l).signals.scene_heading := by
  unfold scoreLine sigStep
  dsimp only
  split
  · exact le_refl _
  · dsimp only
    split <;> omega

/-- `act_heading` never decreases across the whole loop. -/
theorem scoreLinesAux_act_mono (n : Nat) :
    ∀ (lines : List String) (idx : Nat) (acc : Scores),
      acc.signals.act_heading ≤ (scoreLinesAux n idx acc lines).signals.act_heading := by
  intro lines
  induction lines with
  | nil => intro idx acc; exact le_refl _
  | cons l rest ih =>
    intro idx acc
    exact le_trans (scoreLine_act_mono n idx acc l) (ih (idx + 1) _)

/-- `scene_heading` never decreases across the whole loop. -/
theorem scoreLinesAux_scene_mono (n : Nat) :
    ∀ (lines : List String) (idx : Nat) (acc : Scores),
      acc.signals.scene_heading ≤ (scoreLinesAux n idx acc lines).signals.scene_heading := by
  intro lines
  induction lines with
  | nil => intro idx acc; exact le_refl _
  | cons l rest ih =>
    intro idx acc
    exact le_trans (scoreLine_scene_mono n idx acc l) (ih (idx + 1) _)

/-- A member line matching the act pattern forces `act_heading ≥ 1`. -/
theorem scoreLinesAux_act_mem (n : Nat) :
    ∀ (lines : List String) (idx : Nat) (acc : Scores) (l : String),
      l ∈ lines → ¬pyStrip l = "" → actSearchB (pyStrip l).toList = true →
      1 ≤ (scoreLinesAux n idx acc lines).signals.act_heading := by
  intro lines
  induction lines with
  | nil => intro _ _ _ hm; cases hm
  | cons x rest ih =>
    intro idx acc l hm h1 h2
    rcases List.mem_cons.mp hm with heq | hmem
    · subst heq
      have hstep := scoreLine_act_hit n idx acc l h1 h2
      have := scoreLinesAux_act_mono n rest (idx + 1) (scoreLine n idx acc l)
      unfold scoreLinesAux
      omega
    · exact ih (idx + 1) _ l hmem h1 h2

/-- A member line matching the scene pattern forces `scene_heading ≥ 1`. -/
theorem scoreLinesAux_scene_mem (n : Nat) :
    ∀ (lines : List String) (idx : Nat) (acc : Scores) (l : String),
      l ∈ lines → ¬pyStrip l = "" → sceneSearchB (pyStrip l).toList = true →
      1 ≤ (scoreLinesAux n idx acc lines).signals.scene_heading := by
  intro lines
  induction lines with
  | nil => intro _ _ _ hm; cases hm
  | cons x rest ih =>
    intro idx acc l hm h1 h2
    rcases List.mem_cons.mp hm with heq | hmem
    · subst heq
      have hstep := scoreLine_scene_hit n idx acc l h1 h2
      have := scoreLinesAux_scene_mono n rest (idx + 1) (scoreLine n idx acc l)
      unfold scoreLinesAux
      omega
    · exact ih (idx + 1) _ l hmem h1 h2

/-- The intro multiplier is non-negative. -/
theorem pmQ_nonneg (b : Bool) : 0 ≤ pmQ b := by
  unfold pmQ
  split <;> norm_num

/-- Each line's play-score contribution is non-negative. -/
theorem playDelta_nonneg (cs : List Char) : 0 ≤ playDelta cs := by
  unfold playDelta
  apply add_nonneg
  apply add_nonneg
  apply add_nonneg
  apply add_nonneg
  all_goals split <;> norm_num

/-- Each line's novel-score contribution is non-negative. -/
theorem novelDelta_nonneg (b : Bool) (cs : List Char) : 0 ≤ novelDelta b cs := by
  unfold novelDelta
  apply add_nonneg
  apply add_nonneg
  apply add_nonneg
  · split <;> norm_num
  · exact mul_nonneg (mul_nonneg (Nat.cast_nonneg _) (by norm_num)) (pmQ_nonneg b)
  · split
    · exact mul_nonneg (by norm_num) (pmQ_nonneg b)
    · exact le_refl 0
  · split
    · exact mul_nonneg (by norm_num) (pmQ_nonneg b)
    · exact le_refl 0

/-- One loop iteration keeps both scores non-negative. -/
theorem scoreLine_nonneg (n idx : Nat) (acc : Scores) (l : String)
    (hp : 0 ≤ acc.play_score) (hn : 0 ≤ acc.novel_score) :
    0 ≤ (scoreLine n idx acc l).play_score ∧ 0 ≤ (scoreLine n idx acc l).novel_score := by
  unfold scoreLine
  dsimp only
  split
  · exact ⟨hp, hn⟩
  · constructor
    · exact add_nonneg hp (playDelta_nonneg _)
    · exact add_nonneg hn (novelDelta_nonneg _ _)

/-- The whole loop keeps both scores non-negative. -/
theorem scoreLinesAux_nonneg (n : Nat) :
    ∀ (lines : List String) (idx : Nat) (acc : Scores),
      0 ≤ acc.play_score → 0 ≤ acc.novel_score →
      0 ≤ (scoreLinesAux n idx acc lines).play_score ∧
        0 ≤ (scoreLinesAux n idx acc lines).novel_score := by
  intro lines
  induction lines with
  | nil => intro idx acc hp hn; exact ⟨hp, hn⟩
  | cons l rest ih =>
    intro idx acc hp hn
    obtain ⟨hp2, hn2⟩ := scoreLine_nonneg n idx acc l hp hn
    exact ih (idx + 1) _ hp2 hn2

/-- The accumulated scores are non-negative for every block list. -/
theorem scoresOf_nonneg (blocks : List Block) :
    0 ≤ (scoresOf blocks).play_score ∧ 0 ≤ (scoresOf blocks).novel_score := by
  unfold scoresOf
  exact scoreLinesAux_nonneg _ _ 0 {} (le_refl 0) (le_refl 0)

/-- `pyRound3` maps `[1/2, 1]` into `[1/2, 1]`. -/
theorem pyRound3_bounds (q : ℚ) (h1 : 1/2 ≤ q) (h2 : q ≤ 1) :
    1/2 ≤ pyRound3 q ∧ pyRound3 q ≤ 1 := by
  have hx1 : (500 : ℚ) ≤ q * 1000 := by linarith
  have hx2 : q * 1000 ≤ 1000 := by linarith
  have hfl : (500 : ℤ) ≤ ⌊q * 1000⌋ := by
    rw [Int.le_floor]
    exact_mod_cast hx1
  have hfu : ⌊q * 1000⌋ ≤ 1000 := by
    have : ⌊q * 1000⌋ ≤ ⌊(1000 : ℚ)⌋ := Int.floor_le_floor hx2
    simpa using this
  have hlow : 500 ≤ pyRound (q * 1000) := by
    unfold pyRound
    dsimp only
    split
    · exact hfl
    · split
      · omega
      · split <;> omega
  have hup : pyRound (q * 1000) ≤ 1000 := by
    unfold pyRound
    dsimp only
    have hfloor_le : (⌊q * 1000⌋ : ℚ) ≤ q * 1000 := Int.floor_le _
    have h999 : (⌊q * 1000⌋ : ℚ) ≤ (1999/2 : ℚ) → ⌊q * 1000⌋ ≤ 999 := by
      intro hc
      by_contra hcon
      push_neg at hcon
      have hge : ((1000 : ℤ) : ℚ) ≤ (⌊q * 1000⌋ : ℚ) := by exact_mod_cast hcon
      norm_num at hge
      linarith
    split
    · exact hfu
    · rename_i hr1
      split
      · rename_i hr2
        have hlt : (⌊q * 1000⌋ : ℚ) < q * 1000 - 1/2 := by linarith
        have := h999 (by linarith)
        omega
      · rename_i hr2
        have hreq : q * 1000 - (⌊q * 1000⌋ : ℚ) = 1/2 :=
          le_antisymm (not_lt.mp hr2) (not_lt.mp hr1)
        have := h999 (by linarith)
        split <;> omega
  unfold pyRound3
  constructor
  · have : (500 : ℚ) ≤ (pyRound (q * 1000) : ℚ) := by exact_mod_cast hlow
    linarith
  · have : (pyRound (q * 1000) : ℚ) ≤ 1000 := by exact_mod_cast hup
    linarith

/-- A heading token whose index is in the TOC set leaves the play-builder
state unchanged and raises nothing (the `continue` at line 148 runs before the
`is_scened_act` evaluation). -/
theorem playStep_toc_skip (toks : List Token) (toc : List Nat) (s : PState) (i : Nat)
    (t : Token) (hh : isHeadingTok t = true) (hm : toc.contains i = true) :
    playStep toks toc s i t = some s := by
  cases t with
  | heading level title inf =>
    unfold playStep
    dsimp only
    rw [if_pos hm]
  | content text => simp [isHeadingTok] at hh

/-- The heading tokens emitted for one line are exactly the matches that
survive the noise filter, in order, with their matched text as title. -/
theorem emitTokens_headings (cs : List Char) :
    ∀ (ms : List (String × Nat × Nat)) (lastPos : Nat),
      (emitTokens cs lastPos ms).filter isHeadingTok =
        (ms.filter fun m => !noisyB cs m.2.1 m.2.2).map
          (fun m => Token.heading m.1 (String.mk (pySlice cs m.2.1 m.2.2)) false) := by
  intro ms
  induction ms with
  | nil =>
    intro lastPos
    unfold emitTokens
    dsimp only
    split <;> simp [isHeadingTok]
  | cons m rest ih =>
    intro lastPos
    obtain ⟨level, a, b⟩ := m
    unfold emitTokens
    by_cases hn : noisyB cs a b
    · rw [if_pos hn]
      simp only [List.filter_cons, hn, Bool.not_true]
      exact ih lastPos
    · rw [if_neg hn]
      rw [List.filter_append]
      have hfirst :
          ((if pyStripL (pySlice cs lastPos a) = [] then []
            else [Token.content (String.mk (pyStripL (pySlice cs lastPos a)))]).filter
            isHeadingTok) = [] := by
        split <;> simp [isHeadingTok]
      rw [hfirst]
      simp only [List.nil_append, List.filter_cons, isHeadingTok, List.filter_cons,
        Bool.not_eq_true', eq_self_iff_true]
      rw [ih b]
      simp [hn]

/-! ## Claim theorems -/

/-- C1: for every block list whose signal counts satisfy the strict structural
override (`act_heading ≥ 1` and `scene_heading ≥ 1`, or `act_heading ≥ 3`),
`classify` returns doc type "play" with confidence exactly 0.95 regardless of
the scores; in particular, a line sequence containing an "ACT I" line and a
"SCENE 1" line is classified "play" at 0.95 whatever novel-signal content
surrounds them. -/
theorem c1_strict_override (blocks : List Block) :
    (((1 ≤ (classify blocks).signals.act_heading ∧
          1 ≤ (classify blocks).signals.scene_heading) ∨
        3 ≤ (classify blocks).signals.act_heading) →
      (classify blocks).type = "play" ∧ (classify blocks).confidence = 95/100) ∧
    ("ACT I" ∈ extractLines blocks → "SCENE 1" ∈ extractLines blocks →
      (classify blocks).type = "play" ∧ (classify blocks).confidence = 95/100) := by
  have hs := classify_signals blocks
  have main :
      ((1 ≤ (scoresOf blocks).signals.act_heading ∧
          1 ≤ (scoresOf blocks).signals.scene_heading) ∨
        3 ≤ (scoresOf blocks).signals.act_heading) →
      (classify blocks).type = "play" ∧ (classify blocks).confidence = 95/100 := by
    intro h
    unfold classify
    rw [if_pos h]
    exact ⟨rfl, rfl⟩
  constructor
  · intro h
    rw [hs] at h
    exact main h
  · intro ha hsc
    refine main (Or.inl ⟨?_, ?_⟩)
    · exact scoreLinesAux_act_mem _ _ 0 {} "ACT I" ha (by decide) (by decide)
    · exact scoreLinesAux_scene_mem _ _ 0 {} "SCENE 1" hsc (by decide) (by decide)

/-- C1 witness: a concrete document with an "ACT I" line, a "SCENE 1" line and
trailing novel-signal content is classified "play" at 0.95. -/
theorem c1_strict_override_witness :
    (classify (mkBlocks [["ACT I"], ["SCENE 1"], ["he said hello"]])).type = "play" ∧
      (classify (mkBlocks [["ACT I"], ["SCENE 1"], ["he said hello"]])).confidence = 95/100 :=
  (c1_strict_override (mkBlocks [["ACT I"], ["SCENE 1"], ["he said hello"]])).2
    (by decide) (by decide)

/-- C9: for every input block list the returned confidence lies in
[1/2, 1] — the override branch yields 0.95, the insufficient-evidence branch
0.5, and the score branch rounds `max/total` of non-negative scores whose sum
is at least 2. -/
theorem c9_confidence_range (blocks : List Block) :
    1/2 ≤ (classify blocks).confidence ∧ (classify blocks).confidence ≤ 1 := by
  obtain ⟨hp, hn⟩ := scoresOf_nonneg blocks
  unfold classify
  split
  · constructor <;> norm_num
  · split
    · constructor <;> norm_num
    · rename_i htot
      push_neg at htot
      have hsum : (0 : ℚ) < (scoresOf blocks).play_score + (scoresOf blocks).novel_score := by
        linarith
      have hmax_le : max (scoresOf blocks).play_score (scoresOf blocks).novel_score ≤
          (scoresOf blocks).play_score + (scoresOf blocks).novel_score := by
        rcases max_cases (scoresOf blocks).play_score (scoresOf blocks).novel_score with
          ⟨hm, _⟩ | ⟨hm, _⟩ <;> rw [hm] <;> linarith
      have hmax_ge : (scoresOf blocks).play_score + (scoresOf blocks).novel_score ≤
          2 * max (scoresOf blocks).play_score (scoresOf blocks).novel_score := by
        rcases max_cases (scoresOf blocks).play_score (scoresOf blocks).novel_score with
          ⟨hm, hcmp⟩ | ⟨hm, hcmp⟩ <;> rw [hm] <;> linarith
      have h1 : 1/2 ≤ max (scoresOf blocks).play_score (scoresOf blocks).novel_score /
          ((scoresOf blocks).play_score + (scoresOf blocks).novel_score) := by
        rw [le_div_iff₀ hsum]
        linarith
      have h2 : max (scoresOf blocks).play_score (scoresOf blocks).novel_score /
          ((scoresOf blocks).play_score + (scoresOf blocks).novel_score) ≤ 1 := by
        rw [div_le_one hsum]
        exact hmax_le
      exact pyRound3_bounds _ h1 h2

/-- C10: when the strict override does not fire, the evidence total reaches
2.0 and the two scores are exactly equal, `classify` resolves the tie to
"novel" (never "play") with confidence 0.5. -/
theorem c10_tie_resolves_novel (blocks : List Block)
    (h1 : ¬(((1 ≤ (classify blocks).signals.act_heading ∧
          1 ≤ (classify blocks).signals.scene_heading) ∨
        3 ≤ (classify blocks).signals.act_heading)))
    (h2 : 2 ≤ (classify blocks).play_score + (classify blocks).novel_score)
    (h3 : (classify blocks).play_score = (classify blocks).novel_score) :
    (classify blocks).type = "novel" ∧ (classify blocks).confidence = 1/2 := by
  rw [classify_signals] at h1
  rw [classify_play_score, classify_novel_score] at h2 h3
  have hpos : (0 : ℚ) < (scoresOf blocks).novel_score := by
    rw [h3] at h2
    linarith
  have hval : max (scoresOf blocks).play_score (scoresOf blocks).novel_score /
      ((scoresOf blocks).play_score + (scoresOf blocks).novel_score) = 1/2 := by
    rw [h3, max_self]
    rw [div_eq_iff (by linarith : (scoresOf blocks).novel_score +
      (scoresOf blocks).novel_score ≠ 0)]
    ring
  have hround : pyRound3 (1/2 : ℚ) = 1/2 := by decide
  unfold classify
  rw [if_neg h1, if_neg (not_lt.mpr h2)]
  constructor
  · have : ¬((scoresOf blocks).play_score > (scoresOf blocks).novel_score) := by
      rw [h3]
      exact lt_irrefl _
    simp only [this, if_false, if_neg this]
  · show pyRound3 _ = 1/2
    rw [hval, hround]

/-- C10 witness: one character-cue line ("HAMLET.", play 2.0) against four
"he said" lines (novel 4 × 0.5 = 2.0) ties the scores with total 4 ≥ 2 and no
structural override; the result is "novel" at confidence 0.5. -/
theorem c10_tie_resolves_novel_witness :
    (classify (mkBlocks [["HAMLET."], ["he said"], ["he said"], ["he said"],
        ["he said"]])).type = "novel" ∧
      (classify (mkBlocks [["HAMLET."], ["he said"], ["he said"], ["he said"],
        ["he said"]])).confidence = 1/2 :=
  c10_tie_resolves_novel
    (mkBlocks [["HAMLET."], ["he said"], ["he said"], ["he said"], ["he said"]])
    (by decide) (by decide) (by decide)

/-- C2 counterexample: tokenizing the single line
"ACT I SCENE 1 HAMLET speaks" with doc type play yields one token, not three:
the lowercase word "speaks" lies inside the ±20-character windows of both
heading matches, and the literal "Scene" occurs in neither match nor window,
so the noise filter discards both matches. -/
theorem c2_tokenise_counterexample :
    (tokenise (mkBlocks [["ACT I SCENE 1 HAMLET speaks"]]) "play").length = 1 := by rfl

/-- C2 amended: tokenizing the single line "ACT I SCENE 1 HAMLET speaks" with
doc type play produces exactly one Content token holding the entire line; the
ACT and SCENE matches are both discarded by the lowercase-window noise
filter. -/
theorem c2_tokenise_amended :
    tokenise (mkBlocks [["ACT I SCENE 1 HAMLET speaks"]]) "play" =
      [Token.content "ACT I SCENE 1 HAMLET speaks"] := by rfl

/-- C3 counterexample: the scene pattern matches "SCENE 1" at span (8, 15) of
"he said SCENE 1 loudly", yet no Heading token is emitted: the window holds
lowercase text and the case-sensitive literal "Scene" occurs nowhere, so the
scene match is discarded by the noise filter. -/
theorem c3_scene_discarded_counterexample :
    sceneSpans ("he said SCENE 1 loudly".toList) = [(8, 15)] ∧
      (tokenise (mkBlocks [["he said SCENE 1 loudly"]]) "play").filter isHeadingTok = [] := by
  constructor <;> rfl

/-- C3 amended: a match (scene-type included) survives the noise filter iff
the window lacks lowercase letters or the case-sensitive literal "Scene"
occurs in the matched text or the window; the Heading tokens emitted for a
line are exactly the surviving matches in order.  All-caps "SCENE" matches
inside lowercase context are discarded like any other match. -/
theorem c3_scene_exemption_amended (cs : List Char) (ms : List (String × Nat × Nat))
    (lastPos : Nat) :
    (emitTokens cs lastPos ms).filter isHeadingTok =
      (ms.filter fun m => !noisyB cs m.2.1 m.2.2).map
        (fun m => Token.heading m.1 (String.mk (pySlice cs m.2.1 m.2.2)) false) :=
  emitTokens_headings cs ms lastPos



/-- C4 counterexample: the novel builder performs no TOC suppression.  The
token stream above satisfies the TOC window condition at index 0 (4 headings
in an 8-token window, 0 < 200 content characters between them), yet the
heading at index 3 still contributes a unit: the returned hierarchy is one
chapter titled "CHAPTER 4" rather than the synthetic "Beginning" chapter the
claim implies. -/
theorem c4_toc_novel_counterexample :
    tocQualifies chapterClusterToks 0 = true ∧
      (buildNovelHierarchy chapterClusterToks).map ChapterU.title = ["CHAPTER 4"] := by
  constructor <;> rfl



/-- C4 amended: only the play hierarchy builder suppresses TOC-clustered
headings.  For every token stream, a heading token whose index lies in the
computed TOC set (a window starting at a heading index spanning the next
up-to-8 tokens, holding at least 4 headings with under 200 content characters
between the window's first and last heading) is skipped by the play builder's
loop: the builder's outcome — the returned hierarchy, or the propagated
KeyError (`none`) that a later surviving act heading before a content token
raises — equals the outcome of processing the stream with that token removed
(the `continue` at line 148 precedes the fallible `is_scened_act` evaluation,
so the skip itself never raises).  (The novel builder never consults the TOC
set — see the counterexample.) -/
theorem c4_toc_suppression_amended (toks : List Token) (pre post : List (Nat × Token))
    (i : Nat) (t : Token) (henum : toks.enum = pre ++ (i, t) :: post)
    (hh : isHeadingTok t = true) (htoc : (tocIndices toks).contains i = true) :
    buildPlayHierarchy toks =
      (((pre ++ post).foldl
          (fun os p => os.bind fun s => playStep toks (tocIndices toks) s p.1 p.2)
          (some initPState)).map (finishPlay toks)) := by
  unfold buildPlayHierarchy
  rw [henum]
  congr 1
  rw [List.foldl_append, List.foldl_append, List.foldl_cons]
  have hmid : ∀ os : Option PState,
      os.bind (fun s => playStep toks (tocIndices toks) s (i, t).1 (i, t).2) = os := by
    intro os
    cases os with
    | none => rfl
    | some s => exact playStep_toc_skip toks (tocIndices toks) s i t hh htoc
  rw [hmid]

/-- C4 witness: the suppressed act heading at index 0 of the cluster above is
skipped — the play hierarchy equals the one built without it. -/
theorem c4_toc_suppression_witness :
    buildPlayHierarchy actClusterToks =
      (((([] : List (Nat × Token)) ++
            [(1, Token.heading "act" "ACT II" false), (2, Token.heading "act" "ACT III" false),
             (3, Token.heading "act" "ACT IV" false), (4, Token.content "x")]).foldl
          (fun (os : Option PState) (p : Nat × Token) =>
            os.bind fun s => playStep actClusterToks (tocIndices actClusterToks) s p.1 p.2)
          (some initPState)).map (finishPlay actClusterToks)) :=
  c4_toc_suppression_amended actClusterToks []
    [(1, Token.heading "act" "ACT II" false), (2, Token.heading "act" "ACT III" false),
     (3, Token.heading "act" "ACT IV" false), (4, Token.content "x")]
    0 (Token.heading "act" "ACT I" false) rfl rfl (by rfl)



/-- C5 counterexample: the claim's containment direction is reversed.  The
arriving title "ACT III" textually contains the open act's title "ACT I"
(case-insensitively), so by the claim the heading should be ignored — yet the
builder opens a new act: the result has the two acts "ACT I" and "ACT III". -/
theorem c5_act_repeat_counterexample :
    containsSub (upperL "ACT I") (upperL "ACT III") = true ∧
      (buildPlayHierarchy actRenameToks).map (fun acts => acts.map ActU.title) =
        some ["ACT I", "ACT III"] := by
  constructor <;> rfl

/-- C5 amended: the code's act-repeat filter tests the reverse containment:
an arriving Act heading is ignored — the state is left unchanged, no new act
opened, nothing raised — precisely when the ARRIVING title, uppercased, is a
substring of the OPEN act's uppercased title (structural_segmenter.py line
152; that `continue` runs before the fallible `is_scened_act` line). -/
theorem c5_act_repeat_amended (toks : List Token) (toc : List Nat) (s : PState) (i : Nat)
    (title : String) (inf : Bool) (a : ActU) (hcur : s.curAct = some a)
    (hsub : containsSub (upperL title) (upperL a.title) = true) :
    playStep toks toc s i (Token.heading "act" title inf) = some s := by
  have hrep : actRepeatB s.curAct title = true := by
    rw [hcur]
    exact hsub
  unfold playStep
  dsimp only
  split
  · rfl
  · rw [if_pos ⟨rfl, hrep⟩]

/-- C5 witness: with act "ACT I" open, an arriving act heading titled "act i"
(whose uppercase form is a substring of "ACT I") leaves the state unchanged. -/
theorem c5_act_repeat_witness :
    playStep [] [] ⟨[], some ⟨"ACT I", [], none⟩, none, [], true⟩ 0
        (Token.heading "act" "act i" false) =
      some ⟨[], some ⟨"ACT I", [], none⟩, none, [], true⟩ :=
  c5_act_repeat_amended [] [] ⟨[], some ⟨"ACT I", [], none⟩, none, [], true⟩ 0 "act i" false
    ⟨"ACT I", [], none⟩ rfl (by rfl)

/-- C6: on a "SCENE 1" heading line followed by a content line, the play
builder synthesizes the implicit act titled "ACT I" — but writes NO
`inferred` key on it (`inferred = none`, the key is absent), although the
spec and the repository's own test
(test_segmenter.py::test_act_without_explicit_heading_creates_inferred,
asserting `units[0]["inferred"] is True`) require `inferred = true`. -/
theorem c6_implicit_act_code_eval :
    segmentB (mkBlocks [["SCENE 1"], ["To be, or not to be."]]) "play" =
      some (SegResult.play
        [⟨"ACT I", [⟨"SCENE 1", [CBlock.narrative "To be, or not to be."], none⟩], none⟩]) := by
  rfl

/-- C7: on the lines [Chapter 1][para A][para B][Chapter 2][para C] the novel
pipeline returns ONE chapter titled "Beginning" holding all five lines as
paragraphs — not the two chapters the spec and the repository's own test
(test_segmenter.py::test_produces_two_chapters) require: the mixed-case
"Chapter N" heading matches put lowercase letters in their own noise-filter
windows and are discarded, so no heading token survives. -/
theorem c7_novel_pipeline_code_eval :
    segmentB (mkBlocks [["Chapter 1"], ["para A"], ["para B"], ["Chapter 2"], ["para C"]])
        "novel" =
      some (SegResult.novel
        [⟨"Beginning",
          [⟨"", ["Chapter 1", "para A", "para B", "Chapter 2", "para C"],
            some "Chapter 1\n\npara A\n\npara B\n\nChapter 2\n\npara C"⟩]⟩]) := by
  rfl

/-- C8 counterexample: on an empty block list the play builder does NOT
return an empty sequence — it returns the synthetic fallback unit "The Play"
(with an empty "Content" child) even though no content token existed. -/
theorem c8_empty_play_counterexample :
    segmentB [] "play" ≠ some (SegResult.play []) := by
  intro h
  simp [segmentB, tokenise, extractLines, buildPlayHierarchy, tocIndices, finishPlay,
    initPState, flushS, fallbackSingleUnit, analysePlayContent] at h

/-- C8 amended: `classify` is total and returns `generic` with confidence 0.5
and all-zero signals whenever the extracted lines are empty (empty block list
or all-empty span text); the novel builder returns the empty sequence on an
empty block list; the play builder instead always returns the single
synthetic "The Play" fallback unit, even with zero content tokens. -/
theorem c8_degenerate_inputs_amended :
    (∀ blocks : List Block, extractLines blocks = [] →
      classify blocks = ⟨"generic", 1/2, 0, 0, {}⟩) ∧
      segmentB [] "novel" = some (SegResult.novel []) ∧
      segmentB [] "play" =
        some (SegResult.play [⟨"The Play", [⟨"Content", [], none⟩], none⟩]) := by
  refine ⟨?_, rfl, rfl⟩
  intro blocks h
  have hsc : scoresOf blocks = {} := by
    unfold scoresOf
    rw [h]
    rfl
  unfold classify
  rw [hsc]
  rfl

/-- C8 witness: the empty block list itself. -/
theorem c8_degenerate_inputs_witness :
    classify [] = ⟨"generic", 1/2, 0, 0, {}⟩ :=
  c8_degenerate_inputs_amended.1 [] rfl
